import Mathlib

/-!
Verification of `metadata/forms.py`: form-layer validation and persistence
glue for document metadata. We shallowly embed the four forms of the file
(`DocumentMetadataForm`, `DocumentMetadataAddForm`, `DocumentMetadataRemoveForm`,
`DocumentTypeMetadataTypeRelationshipForm`) as executable Lean definitions.

The persistence layer is modelled as a list of relationship rows; the
Django queryset operations `filter`, `exists`, `get` become list operations,
with `get` returning an `Except` to model `DoesNotExist` /
`MultipleObjectsReturned`. Persistence calls (`save(_user=...)`,
`delete(_user=...)`) are recorded in an explicit operation trace so that
"no persistence call occurs" and "attributed to the acting user" are
statable. Document types, metadata types and users are identified by their
primary keys (`Nat`).
-/

namespace Metadata

/-- A `DocumentTypeMetadataType` join row: document type pk, metadata type
pk, and the `required` flag. -/
structure Relationship where
  document_type : Nat
  metadata_type : Nat
  required : Bool
deriving DecidableEq, Repr

/-- A persistence call observed during `save`, with the acting user of the
`_user=` keyword argument. -/
inductive PersistOp where
  | save (row : Relationship) (user : Nat)
  | delete (row : Relationship) (user : Nat)
deriving DecidableEq, Repr

/-- `self.initial['document_type'].metadata.filter(metadata_type=...)`:
the queryset of rows for the (document type, metadata type) pair. -/
def getRelationship (db : List Relationship) (dt mt : Nat) : List Relationship :=
  db.filter (fun r => r.document_type == dt && r.metadata_type == mt)

/-- Queryset `.exists()`. -/
def qsExists (qs : List Relationship) : Bool :=
  !qs.isEmpty

/-- Queryset `.get()`: the unique row, `DoesNotExist` on an empty queryset,
`MultipleObjectsReturned` on more than one row. -/
def qsGet (qs : List Relationship) : Except String Relationship :=
  match qs with
  | [] => .error "DoesNotExist"
  | [r] => .ok r
  | _ :: _ :: _ => .error "MultipleObjectsReturned"

/-- `instance.save(_user=...)` after mutating a fetched instance: the stored
row `r` is overwritten with its mutated copy `r'`. -/
def updateRow (db : List Relationship) (r r' : Relationship) : List Relationship :=
  db.map (fun x => if x = r then r' else x)

/-- Modelled from the spec: `DocumentTypeMetadataType(document_type=...,
metadata_type=...)` constructed without an explicit `required` argument
(the model class lives in `models.py`, outside the given sources); the spec
states this branch "creates a new non-required row", i.e. the model field
default for `required` is `False`. -/
def newRelationship (dt mt : Nat) : Relationship :=
  { document_type := dt, metadata_type := mt, required := false }

/-- `DocumentTypeMetadataTypeRelationshipForm.save_relationship_none`:
dereferences `relationship.get()` unconditionally, then deletes it. -/
def save_relationship_none (db : List Relationship) (dt mt user : Nat) :
    Except String (List Relationship × List PersistOp) :=
  match qsGet (getRelationship db dt mt) with
  | .error e => .error e
  | .ok r => .ok (db.erase r, [.delete r user])

/-- `DocumentTypeMetadataTypeRelationshipForm.save_relationship_optional`. -/
def save_relationship_optional (db : List Relationship) (dt mt user : Nat) :
    Except String (List Relationship × List PersistOp) :=
  let qs := getRelationship db dt mt
  if qsExists qs then
    match qsGet qs with
    | .error e => .error e
    | .ok r =>
        .ok (updateRow db r { r with required := false },
             [.save { r with required := false } user])
  else
    .ok (db ++ [newRelationship dt mt], [.save (newRelationship dt mt) user])

/-- `DocumentTypeMetadataTypeRelationshipForm.save_relationship_required`:
as optional but with `required=True` (set on the fetched instance, or passed
to the constructor). -/
def save_relationship_required (db : List Relationship) (dt mt user : Nat) :
    Except String (List Relationship × List PersistOp) :=
  let qs := getRelationship db dt mt
  if qsExists qs then
    match qsGet qs with
    | .error e => .error e
    | .ok r =>
        .ok (updateRow db r { r with required := true },
             [.save { r with required := true } user])
  else
    let r := { document_type := dt, metadata_type := mt, required := true : Relationship }
    .ok (db ++ [r], [.save r user])

/-- `DocumentTypeMetadataTypeRelationshipForm.get_relationship_type`:
"required" / "optional" when a row exists according to its flag, else
"none". `.get()` is only reached when the queryset is nonempty. -/
def get_relationship_type (db : List Relationship) (dt mt : Nat) :
    Except String String :=
  let qs := getRelationship db dt mt
  if qsExists qs then
    match qsGet qs with
    | .error e => .error e
    | .ok r => .ok (if r.required then "required" else "optional")
  else
    .ok "none"

/-- `DocumentTypeMetadataTypeRelationshipForm.save`: no-op when the chosen
relationship type equals the one recorded at construction, otherwise
dispatch by name to `save_relationship_<chosen>` (an unknown name would be
an `AttributeError`; the choice field restricts submissions to the three
names). -/
def relationshipFormSave (db : List Relationship) (dt mt user : Nat)
    (initial_relationship_type chosen : String) :
    Except String (List Relationship × List PersistOp) :=
  if chosen ≠ initial_relationship_type then
    if chosen = "none" then save_relationship_none db dt mt user
    else if chosen = "optional" then save_relationship_optional db dt mt user
    else if chosen = "required" then save_relationship_required db dt mt user
    else .error "AttributeError"
  else
    .ok (db, [])

/-! ## `DocumentMetadataForm` and its subclasses -/

/-- The kind of a form widget, as far as the file manipulates widgets. -/
inductive WidgetKind where
  | textInput
  | hiddenInput
  | select
deriving DecidableEq, Repr

/-- A widget together with the HTML attributes the file sets on it
(`readonly`, `class`). -/
structure Widget where
  kind : WidgetKind
  readonly : Bool
  cssClass : String
deriving DecidableEq, Repr

/-- The kind of a value-holding form field used by the file. -/
inductive FieldKind where
  | char
  | choice
deriving DecidableEq, Repr

/-- A string-valued form field: `CharField` or `ChoiceField`, with the
attributes the file reads or writes. -/
structure Field where
  kind : FieldKind
  label : String
  required : Bool
  initialS : Option String
  choices : List (String × String)
  widget : Widget
deriving DecidableEq, Repr

/-- The `update` `BooleanField`. -/
structure BoolField where
  label : String
  required : Bool
  initial : Bool
deriving DecidableEq, Repr

/-- The field dictionary of a `DocumentMetadataForm`; `value` is an
`Option` because `DocumentMetadataRemoveForm.__init__` pops it. -/
structure DMFormFields where
  metadata_type_id : Field
  metadata_type_name : Field
  value : Option Field
  update : BoolField
deriving DecidableEq, Repr

/-- A `MetadataType` row as consumed by this file. The template evaluators
and the validation pipeline are external collaborators; their outcome for
this instance is carried as data (`lookupValues` is the result of
`get_lookup_values()`, `defaultValue` of `get_default_value()`), the
required-lookup and validator as functions of the document type. An empty
`lookup` / `default` / `label` string is falsy, as in Python. -/
structure MetadataType where
  pk : Nat
  name : String
  label : String
  lookup : String
  default : String
  lookupValues : Except String (List String)
  defaultValue : Except String String
  requiredFor : Nat → Bool
  validateValue : Nat → String → Except String String

/-- The class-level field declarations of `DocumentMetadataForm`. -/
def baseFields : DMFormFields where
  metadata_type_id :=
    { kind := .char, label := "ID", required := true, initialS := none,
      choices := [], widget := { kind := .hiddenInput, readonly := false, cssClass := "" } }
  metadata_type_name :=
    { kind := .char, label := "Name", required := false, initialS := none,
      choices := [], widget := { kind := .textInput, readonly := true, cssClass := "" } }
  value := some
    { kind := .char, label := "Value", required := false, initialS := none,
      choices := [], widget := { kind := .textInput, readonly := false, cssClass := "metadata-value" } }
  update := { label := "Update", required := false, initial := true }

/-- The field declarations of `DocumentMetadataRemoveForm`: the class-level
`update` override (`initial=False, label=_('Remove')`) replaces the
inherited declaration before `__init__` runs. -/
def removeBaseFields : DMFormFields :=
  { baseFields with update := { label := "Remove", required := false, initial := false } }

/-- The lookup branch of `DocumentMetadataForm.__init__`: the value field is
first replaced by a fresh `ChoiceField` (keeping only the label; a fresh
`ChoiceField` is required with a default `Select` widget and no choices),
then `get_lookup_values()` is evaluated. On success the choices are zipped
with themselves, an empty-choice placeholder is prepended when not required,
and `required` and the css class are set; on an exception the initial is set
to the error message and the widget replaced by a read-only `TextInput`. -/
def applyLookup (mt : MetadataType) (required : Bool) (f : Field) : Field :=
  let fresh : Field :=
    { kind := .choice, label := f.label, required := true, initialS := none,
      choices := [], widget := { kind := .select, readonly := false, cssClass := "" } }
  match mt.lookupValues with
  | .ok values =>
      let choices := values.zip values
      let choices := if !required then ("", "------") :: choices else choices
      { fresh with choices := choices, required := required,
                   widget := { fresh.widget with cssClass := "metadata-value" } }
  | .error e =>
      { fresh with initialS := some ("Lookup value error: " ++ e),
                   widget := { kind := .textInput, readonly := true, cssClass := "" } }

/-- The default-value branch of `DocumentMetadataForm.__init__`: on success
the field initial becomes the evaluated default; on an exception the initial
becomes the error message and the widget a read-only `TextInput`. -/
def applyDefault (mt : MetadataType) (f : Field) : Field :=
  match mt.defaultValue with
  | .ok v => { f with initialS := some v }
  | .error e =>
      { f with initialS := some ("Default value error: " ++ e),
               widget := { kind := .textInput, readonly := true, cssClass := "" } }

/-- The state of a constructed `DocumentMetadataForm`: its field dictionary
and the `metadata_type` / `document_type` attributes, which exist only when
an `initial` keyword argument was given. -/
structure DMFormState where
  fields : DMFormFields
  mtdt : Option (MetadataType × Nat)

/-- `DocumentMetadataForm.__init__`, parameterised by the class-level field
declarations (so that `DocumentMetadataRemoveForm` can reuse it with its
`update` override). `initial` bundles the `metadata_type` and
`document_type` of the `initial` kwarg; `none` means no `initial` kwarg. -/
def dmFormInitCore (base : DMFormFields) (initial : Option (MetadataType × Nat)) :
    DMFormState :=
  match initial with
  | none => { fields := base, mtdt := none }
  | some (mt, dt) =>
      let required := mt.requiredFor dt
      let valueF := match base.value with
        | none => none
        | some f => some { f with required := required }
      let updateF := if required then base.update else { base.update with initial := false }
      let required_string := if required then " (Required)" else ""
      let nameF := { base.metadata_type_name with
        initialS := some ((if mt.label ≠ "" then mt.label else mt.name) ++ required_string) }
      let idF := { base.metadata_type_id with initialS := some (toString mt.pk) }
      let valueF := if mt.lookup ≠ ""
        then valueF.map (fun f => applyLookup mt required f)
        else valueF
      let valueF := if mt.default ≠ ""
        then valueF.map (fun f => applyDefault mt f)
        else valueF
      { fields := { metadata_type_id := idF, metadata_type_name := nameF,
                    value := valueF, update := updateF },
        mtdt := some (mt, dt) }

/-- `DocumentMetadataForm(...)`. -/
def dmFormInit (initial : Option (MetadataType × Nat)) : DMFormState :=
  dmFormInitCore baseFields initial

/-- `DocumentMetadataRemoveForm(...)`: run the parent constructor with the
overridden field declarations, then `self.fields.pop('value')`. -/
def dmRemoveFormInit (initial : Option (MetadataType × Nat)) : DMFormState :=
  let s := dmFormInitCore removeBaseFields initial
  { s with fields := { s.fields with value := none } }

/-- `DocumentMetadataForm.clean`, on the cleaned data (`value` string, empty
means falsy; `update` boolean): raises `ValidationError` when the metadata
type is required for the document type, no value was supplied and the update
toggle is unset; when the update toggle is set and the form has a
`metadata_type`, the value is passed through `validate_value`, whose
exception propagates. -/
def dmFormClean (form : DMFormState) (value : String) (update : Bool) :
    Except String (String × Bool) :=
  match form.mtdt with
  | some (mt, dt) =>
      let required := mt.requiredFor dt
      if required && value == "" && !update then
        .error ("\"" ++ mt.label ++ "\" is required for this document type.")
      else if update then
        match mt.validateValue dt value with
        | .ok v => .ok (v, update)
        | .error e => .error e
      else
        .ok (value, update)
  | none => .ok (value, update)

/-- `DocumentMetadataRemoveForm.clean`: `super(forms.Form, self).clean()`
is `BaseForm.clean`, which returns `self.cleaned_data` unchanged (the
`value` key is gone, the field having been popped). -/
def dmRemoveFormClean (update : Bool) : Except String Bool :=
  .ok update

/-- `DocumentMetadataAddForm.__init__`: metadata types are identified by pk;
`get_for_document_type` stands for the external manager query
`MetadataType.objects.get_for_document_type`, `document_type` and
`querysetArg` for the `document_type` and `queryset` kwargs. The `queryset`
kwarg is popped only inside the `if document_type:` branch; with no
document type a passed `queryset` kwarg is left in `kwargs` and forwarded
to `forms.Form.__init__`, whose fixed keyword signature raises `TypeError`
on it, so construction fails before any queryset is installed. On success
the result is the queryset installed on the `metadata_type` field
(`MetadataType.objects.none()` when no document type and no `queryset`
kwarg are supplied). -/
def dmAddFormInit (get_for_document_type : Nat → List Nat)
    (document_type : Option Nat) (querysetArg : Option (List Nat)) :
    Except String (List Nat) :=
  match document_type with
  | some dt => .ok (querysetArg.getD (get_for_document_type dt))
  | none =>
      match querysetArg with
      | some _ => .error "TypeError"
      | none => .ok []

/-! ## Queryset lemmas -/

/-- Filtering distributes over concatenation of row lists. -/
theorem getRelationship_append (db₁ db₂ : List Relationship) (dt mt : Nat) :
    getRelationship (db₁ ++ db₂) dt mt =
      getRelationship db₁ dt mt ++ getRelationship db₂ dt mt := by
  unfold getRelationship
  exact List.filter_append _ _

/-- Saving a mutated instance whose pair fields are unchanged rewrites the
pair querysets pointwise: every queryset of the updated store is the image
of the original one. -/
theorem getRelationship_updateRow (db : List Relationship) (r r' : Relationship)
    (hdt : r'.document_type = r.document_type)
    (hmt : r'.metadata_type = r.metadata_type) (a b : Nat) :
    getRelationship (updateRow db r r') a b =
      (getRelationship db a b).map (fun x => if x = r then r' else x) := by
  unfold updateRow getRelationship
  rw [List.filter_map]
  congr 1
  apply List.filter_congr
  intro x _
  by_cases hxr : x = r
  · subst hxr
    simp [hdt, hmt]
  · simp [hxr]

/-- When the pair queryset is exactly `[r]`, erasing `r` from the store
empties the pair queryset. -/
theorem getRelationship_erase_self (db : List Relationship) (dt mt : Nat)
    (r : Relationship) (h : getRelationship db dt mt = [r]) :
    getRelationship (db.erase r) dt mt = [] := by
  unfold getRelationship at h ⊢
  induction db with
  | nil => simp at h
  | cons x xs ih =>
      rw [List.filter_cons] at h
      by_cases hpx : (x.document_type == dt && x.metadata_type == mt) = true
      · rw [if_pos hpx] at h
        obtain ⟨hxr, hxs⟩ := List.cons_eq_cons.mp h
        subst hxr
        rw [List.erase_cons_head, hxs]
      · rw [if_neg hpx] at h
        have hxr : ¬(x = r) := by
          intro hcontr
          subst hcontr
          have : x ∈ List.filter (fun y => y.document_type == dt && y.metadata_type == mt) xs := by
            rw [h]; exact List.mem_singleton.mpr rfl
          exact hpx ((List.mem_filter.mp this).2)
        rw [List.erase_cons_tail, List.filter_cons, if_neg hpx]
        · exact ih h
        · simp [hxr]

/-- Erasing a row never increases a pair queryset. -/
theorem getRelationship_erase_le (db : List Relationship) (r : Relationship)
    (a b : Nat) :
    (getRelationship (db.erase r) a b).length ≤ (getRelationship db a b).length :=
  List.Sublist.length_le (List.Sublist.filter _ (List.erase_sublist r db))

/-- Appending one new row for a pair whose queryset was empty keeps every
pair queryset at length at most one, given it was so before. -/
theorem pair_length_append_new (db : List Relationship) (dt mt a b : Nat)
    (n : Relationship) (hndt : n.document_type = dt) (hnmt : n.metadata_type = mt)
    (hq : getRelationship db dt mt = [])
    (hinv : (getRelationship db a b).length ≤ 1) :
    (getRelationship (db ++ [n]) a b).length ≤ 1 := by
  rw [getRelationship_append, List.length_append]
  by_cases hadt : dt = a
  · by_cases hbmt : mt = b
    · subst hadt
      subst hbmt
      rw [hq]
      simpa using List.length_filter_le _ [n]
    · have h2 : getRelationship [n] a b = [] := by
        simp [getRelationship, hnmt, hbmt]
      rw [h2]
      simpa using hinv
  · have h2 : getRelationship [n] a b = [] := by
      simp [getRelationship, hndt, hadt]
    rw [h2]
    simpa using hinv

/-- A nonempty queryset of length at most one is a singleton. -/
theorem qs_singleton (qs : List Relationship) (hne : qsExists qs = true)
    (hlen : qs.length ≤ 1) : ∃ r, qs = [r] := by
  match qs, hne, hlen with
  | [r], _, _ => exact ⟨r, rfl⟩

/-! ## Concrete sample metadata types, used by witnesses -/

/-- A metadata type that is required for every document type; no lookup or
default template. -/
def mtRequired : MetadataType where
  pk := 1
  name := "year"
  label := "Year"
  lookup := ""
  default := ""
  lookupValues := .ok []
  defaultValue := .ok ""
  requiredFor := fun _ => true
  validateValue := fun _ v => .ok v

/-- A metadata type that is optional for every document type; no lookup or
default template. -/
def mtOptional : MetadataType where
  pk := 2
  name := "author"
  label := "Author"
  lookup := ""
  default := ""
  lookupValues := .ok []
  defaultValue := .ok ""
  requiredFor := fun _ => false
  validateValue := fun _ v => .ok v

/-- A metadata type whose lookup template raises and whose default template
evaluates successfully. -/
def mtLookupErrorWithDefault : MetadataType where
  pk := 3
  name := "color"
  label := "Color"
  lookup := "tpl"
  default := "dtpl"
  lookupValues := .error "boom"
  defaultValue := .ok "blue"
  requiredFor := fun _ => false
  validateValue := fun _ v => .ok v

/-- A metadata type whose lookup template raises and which has no default
template. -/
def mtLookupErrorNoDefault : MetadataType :=
  { mtLookupErrorWithDefault with default := "" }

/-! ## Claim theorems -/

/-- C2: for every Metadata Value Form whose metadata type is required for
the form's document type, if the submitted value is empty and the update
toggle is unset, `clean` raises a `ValidationError` — a required-field
error naming the metadata type. -/
theorem C2_required_empty_update_unset (mt : MetadataType) (dt : Nat)
    (hreq : mt.requiredFor dt = true) :
    dmFormClean (dmFormInit (some (mt, dt))) "" false =
      .error ("\"" ++ mt.label ++ "\" is required for this document type.") := by
  simp [dmFormClean, dmFormInit, dmFormInitCore, hreq]

/-- Witness for C2 at a concrete required metadata type. -/
theorem C2_required_empty_update_unset_witness :
    dmFormClean (dmFormInit (some (mtRequired, 0))) "" false =
      .error ("\"" ++ mtRequired.label ++ "\" is required for this document type.") :=
  C2_required_empty_update_unset mtRequired 0 rfl

/-- C7: for every Metadata Value Form whose metadata type is not required
for the form's document type, the update toggle's initial value is false,
and `clean` succeeds on a missing value with the toggle in that unset
state. -/
theorem C7_nonrequired_update_unset (mt : MetadataType) (dt : Nat)
    (hreq : mt.requiredFor dt = false) :
    (dmFormInit (some (mt, dt))).fields.update.initial = false ∧
    dmFormClean (dmFormInit (some (mt, dt))) "" false = .ok ("", false) := by
  constructor
  · simp [dmFormInit, dmFormInitCore, hreq]
  · simp [dmFormClean, dmFormInit, dmFormInitCore, hreq]

/-- Witness for C7 at a concrete optional metadata type. -/
theorem C7_nonrequired_update_unset_witness :
    (dmFormInit (some (mtOptional, 0))).fields.update.initial = false ∧
    dmFormClean (dmFormInit (some (mtOptional, 0))) "" false = .ok ("", false) :=
  C7_nonrequired_update_unset mtOptional 0 rfl

/-- C10: a Metadata Value Form constructed without initial data has no
`metadata_type` attribute, so `clean` performs neither the required-value
check nor the validator call and returns the cleaned data unchanged, even
with the update toggle set. -/
theorem C10_no_initial_clean_identity (v : String) (u : Bool) :
    dmFormClean (dmFormInit none) v u = .ok (v, u) := rfl

/-- C8: the Bulk Remove Form has no `value` field after construction (for
any construction input), its update toggle's initial is false, and its
`clean` bypasses the parent's required-value check and validator call,
returning the cleaned data unchanged. -/
theorem C8_remove_form (initial : Option (MetadataType × Nat)) (u : Bool) :
    (dmRemoveFormInit initial).fields.value = none ∧
    (dmRemoveFormInit initial).fields.update.initial = false ∧
    dmRemoveFormClean u = .ok u := by
  refine ⟨rfl, ?_, rfl⟩
  cases initial with
  | none => rfl
  | some p =>
      obtain ⟨mt, dt⟩ := p
      by_cases h : mt.requiredFor dt <;>
        simp [dmRemoveFormInit, dmFormInitCore, removeBaseFields, h]

/-- C9 counterexample: with no document type but an explicitly passed
`queryset` argument, construction does not yield an empty selectable set —
the unpopped `queryset` kwarg makes the base form constructor raise
`TypeError`, so the Bulk Add Form fails to construct at this input. -/
theorem C9_counterexample :
    dmAddFormInit (fun _ => []) none (some [3]) = .error "TypeError" ∧
    dmAddFormInit (fun _ => []) none (some [3]) ≠ .ok [] :=
  ⟨rfl, fun h => Except.noConfusion h⟩

/-- C9 (amended): with no document type and no `queryset` argument the Bulk
Add Form's selectable set is empty; with no document type but a `queryset`
argument, construction raises `TypeError` (the kwarg is never popped and is
rejected by the base form constructor); with a document type the selectable
set is the explicitly supplied queryset, defaulting to the metadata types
associated with that document type. -/
theorem C9_add_form_queryset (get_for : Nat → List Nat) :
    dmAddFormInit get_for none none = .ok [] ∧
    (∀ q, dmAddFormInit get_for none (some q) = .error "TypeError") ∧
    (∀ dt, dmAddFormInit get_for (some dt) none = .ok (get_for dt)) ∧
    (∀ dt q, dmAddFormInit get_for (some dt) (some q) = .ok q) :=
  ⟨rfl, fun _ => rfl, fun _ => rfl, fun _ _ => rfl⟩

/-- C5 counterexample: a metadata type whose lookup template raises but
whose default template evaluates successfully. Construction still succeeds
and the value field's widget is read-only, but its initial content is the
evaluated default value, not the prefixed lookup error message — the
default-value branch of `__init__` runs after the lookup branch and
overwrites the initial. -/
theorem C5_counterexample :
    Option.map (fun f => (f.initialS, f.widget.readonly))
        (dmFormInit (some (mtLookupErrorWithDefault, 0))).fields.value
      = some (some "blue", true) ∧
    (some ((some "blue" : Option String), true)
      ≠ some ((some "Lookup value error: boom" : Option String), true)) :=
  ⟨rfl, by decide⟩

/-- C5 (amended): if evaluating the lookup raises, no exception escapes the
constructor (the embedded constructor is a total function); the value
field's widget becomes a read-only text input, and — provided the metadata
type has no default-value template — its initial content is the error
message prefixed "Lookup value error: ". -/
theorem C5_lookup_error_readonly (mt : MetadataType) (dt : Nat) (e : String)
    (hl : mt.lookup ≠ "") (he : mt.lookupValues = .error e)
    (hd : mt.default = "") :
    Option.map (fun f => (f.initialS, f.widget.readonly, f.widget.kind))
        (dmFormInit (some (mt, dt))).fields.value
      = some (some ("Lookup value error: " ++ e), true, WidgetKind.textInput) := by
  simp [dmFormInit, dmFormInitCore, hl, hd, applyLookup, he, baseFields]

/-- Witness for the amended C5 at a concrete metadata type with a raising
lookup template and no default template. -/
theorem C5_lookup_error_readonly_witness :
    Option.map (fun f => (f.initialS, f.widget.readonly, f.widget.kind))
        (dmFormInit (some (mtLookupErrorNoDefault, 0))).fields.value
      = some (some ("Lookup value error: " ++ "boom"), true, WidgetKind.textInput) :=
  C5_lookup_error_readonly mtLookupErrorNoDefault 0 "boom" (by decide) rfl rfl

/-- C1: `save_relationship_optional` with an existing row for the pair sets
its `required` flag to false and saves it attributed to the acting user,
creating no new row (the store length is unchanged); with no existing row
it creates exactly one new non-required row for the pair, attributed to the
acting user. `save_relationship_required` is symmetric with `required`
true. -/
theorem C1_save_optional_required (db : List Relationship) (dt mt user : Nat) :
    (∀ r, getRelationship db dt mt = [r] →
      save_relationship_optional db dt mt user =
        .ok (updateRow db r { r with required := false },
             [.save { r with required := false } user]) ∧
      (updateRow db r { r with required := false }).length = db.length ∧
      getRelationship (updateRow db r { r with required := false }) dt mt
        = [{ r with required := false }]) ∧
    (getRelationship db dt mt = [] →
      save_relationship_optional db dt mt user =
        .ok (db ++ [newRelationship dt mt], [.save (newRelationship dt mt) user]) ∧
      (db ++ [newRelationship dt mt]).length = db.length + 1 ∧
      getRelationship (db ++ [newRelationship dt mt]) dt mt = [newRelationship dt mt]) ∧
    (∀ r, getRelationship db dt mt = [r] →
      save_relationship_required db dt mt user =
        .ok (updateRow db r { r with required := true },
             [.save { r with required := true } user]) ∧
      (updateRow db r { r with required := true }).length = db.length ∧
      getRelationship (updateRow db r { r with required := true }) dt mt
        = [{ r with required := true }]) ∧
    (getRelationship db dt mt = [] →
      save_relationship_required db dt mt user =
        .ok (db ++ [⟨dt, mt, true⟩], [.save ⟨dt, mt, true⟩ user]) ∧
      (db ++ [(⟨dt, mt, true⟩ : Relationship)]).length = db.length + 1 ∧
      getRelationship (db ++ [⟨dt, mt, true⟩]) dt mt = [⟨dt, mt, true⟩]) := by
  refine ⟨?_, ?_, ?_, ?_⟩
  · intro r h
    refine ⟨?_, ?_, ?_⟩
    · simp [save_relationship_optional, h, qsExists, qsGet]
    · simp [updateRow]
    · rw [getRelationship_updateRow db r { r with required := false } rfl rfl dt mt, h]
      simp
  · intro h
    refine ⟨?_, ?_, ?_⟩
    · simp [save_relationship_optional, h, qsExists]
    · simp
    · rw [getRelationship_append, h]
      simp [getRelationship, newRelationship]
  · intro r h
    refine ⟨?_, ?_, ?_⟩
    · simp [save_relationship_required, h, qsExists, qsGet]
    · simp [updateRow]
    · rw [getRelationship_updateRow db r { r with required := true } rfl rfl dt mt, h]
      simp
  · intro h
    refine ⟨?_, ?_, ?_⟩
    · simp [save_relationship_required, h, qsExists]
    · simp
    · rw [getRelationship_append, h]
      simp [getRelationship]

/-- Witness for C1: flipping an existing required row to optional at a
concrete store. -/
theorem C1_save_optional_required_witness :
    save_relationship_optional [⟨1, 2, true⟩] 1 2 7 =
      .ok (updateRow [⟨1, 2, true⟩] ⟨1, 2, true⟩ ⟨1, 2, false⟩,
           [.save ⟨1, 2, false⟩ 7]) ∧
    (updateRow [⟨1, 2, true⟩] ⟨1, 2, true⟩ ⟨1, 2, false⟩).length =
      ([(⟨1, 2, true⟩ : Relationship)] : List Relationship).length ∧
    getRelationship (updateRow [⟨1, 2, true⟩] ⟨1, 2, true⟩ ⟨1, 2, false⟩) 1 2
      = [⟨1, 2, false⟩] :=
  (C1_save_optional_required [⟨1, 2, true⟩] 1 2 7).1 ⟨1, 2, true⟩ rfl

/-- C3: `save_relationship_none` with no existing row for the pair fails
with the unhandled `DoesNotExist` lookup error of `relationship.get()`;
with an existing row it deletes that row, attributed to the acting user,
leaving no row for the pair. -/
theorem C3_save_none (db : List Relationship) (dt mt user : Nat) :
    (getRelationship db dt mt = [] →
      save_relationship_none db dt mt user = .error "DoesNotExist") ∧
    (∀ r, getRelationship db dt mt = [r] →
      save_relationship_none db dt mt user = .ok (db.erase r, [.delete r user]) ∧
      getRelationship (db.erase r) dt mt = []) := by
  constructor
  · intro h
    simp [save_relationship_none, h, qsGet]
  · intro r h
    exact ⟨by simp [save_relationship_none, h, qsGet],
           getRelationship_erase_self db dt mt r h⟩

/-- Witness for C3: deleting the relationship on an empty store raises the
lookup error. -/
theorem C3_save_none_witness :
    save_relationship_none [] 1 2 7 = .error "DoesNotExist" :=
  (C3_save_none [] 1 2 7).1 rfl

/-- C4: `save` is a no-op — no persistence call, store unchanged — when the
chosen relationship type equals the one recorded at construction; otherwise
it dispatches to exactly the one mutation routine selected by the chosen
name. -/
theorem C4_save_dispatch (db : List Relationship) (dt mt user : Nat)
    (irt chosen : String) :
    (chosen = irt → relationshipFormSave db dt mt user irt chosen = .ok (db, [])) ∧
    (chosen ≠ irt → chosen = "none" →
      relationshipFormSave db dt mt user irt chosen =
        save_relationship_none db dt mt user) ∧
    (chosen ≠ irt → chosen = "optional" →
      relationshipFormSave db dt mt user irt chosen =
        save_relationship_optional db dt mt user) ∧
    (chosen ≠ irt → chosen = "required" →
      relationshipFormSave db dt mt user irt chosen =
        save_relationship_required db dt mt user) := by
  refine ⟨?_, ?_, ?_, ?_⟩
  · intro h
    rw [relationshipFormSave, if_neg (not_not_intro h)]
  · intro hne hc
    subst hc
    rw [relationshipFormSave, if_pos hne, if_pos rfl]
  · intro hne hc
    subst hc
    rw [relationshipFormSave, if_pos hne, if_neg (by decide), if_pos rfl]
  · intro hne hc
    subst hc
    rw [relationshipFormSave, if_pos hne, if_neg (by decide), if_neg (by decide),
        if_pos rfl]

/-- Witness for C4: a save whose chosen state equals the initial state is a
no-op on a concrete store. -/
theorem C4_save_dispatch_witness :
    relationshipFormSave [⟨1, 2, false⟩] 1 2 7 "optional" "optional" =
      .ok ([⟨1, 2, false⟩], []) :=
  (C4_save_dispatch [⟨1, 2, false⟩] 1 2 7 "optional" "optional").1 rfl

/-- C6: every successful Relationship Form save path preserves the
invariant that at most one relationship row exists per (document type,
metadata type) pair — a new row is created only on the branch where the
pair's queryset is empty, and the update/delete branches rewrite or erase
the existing row. -/
theorem C6_at_most_one_preserved (db db' : List Relationship)
    (dt mt user : Nat) (irt chosen : String) (ops : List PersistOp)
    (hinv : ∀ a b, (getRelationship db a b).length ≤ 1)
    (hsave : relationshipFormSave db dt mt user irt chosen = .ok (db', ops)) :
    ∀ a b, (getRelationship db' a b).length ≤ 1 := by
  intro a b
  unfold relationshipFormSave at hsave
  by_cases heq : chosen = irt
  · rw [if_neg (not_not_intro heq)] at hsave
    simp only [Except.ok.injEq, Prod.mk.injEq] at hsave
    obtain ⟨h1, -⟩ := hsave
    subst h1
    exact hinv a b
  · rw [if_pos heq] at hsave
    by_cases hc1 : chosen = "none"
    · rw [if_pos hc1] at hsave
      unfold save_relationship_none at hsave
      rcases hq : qsGet (getRelationship db dt mt) with e | r
      · rw [hq] at hsave
        simp at hsave
      · rw [hq] at hsave
        simp only [Except.ok.injEq, Prod.mk.injEq] at hsave
        obtain ⟨h1, -⟩ := hsave
        subst h1
        exact le_trans (getRelationship_erase_le db r a b) (hinv a b)
    · rw [if_neg hc1] at hsave
      by_cases hc2 : chosen = "optional"
      · rw [if_pos hc2] at hsave
        unfold save_relationship_optional at hsave
        by_cases hex : qsExists (getRelationship db dt mt) = true
        · obtain ⟨r, hr⟩ := qs_singleton _ hex (hinv dt mt)
          rw [hr] at hsave
          simp only [qsExists, qsGet, List.isEmpty_cons, Bool.not_false, if_true,
            Except.ok.injEq, Prod.mk.injEq] at hsave
          obtain ⟨h1, -⟩ := hsave
          subst h1
          rw [getRelationship_updateRow db r { r with required := false } rfl rfl a b,
              List.length_map]
          exact hinv a b
        · have hq : getRelationship db dt mt = [] := by
            simpa [qsExists, List.isEmpty_iff] using hex
          rw [if_neg hex] at hsave
          simp only [Except.ok.injEq, Prod.mk.injEq] at hsave
          obtain ⟨h1, -⟩ := hsave
          subst h1
          exact pair_length_append_new db dt mt a b (newRelationship dt mt)
            rfl rfl hq (hinv a b)
      · rw [if_neg hc2] at hsave
        by_cases hc3 : chosen = "required"
        · rw [if_pos hc3] at hsave
          unfold save_relationship_required at hsave
          by_cases hex : qsExists (getRelationship db dt mt) = true
          · obtain ⟨r, hr⟩ := qs_singleton _ hex (hinv dt mt)
            rw [hr] at hsave
            simp only [qsExists, qsGet, List.isEmpty_cons, Bool.not_false, if_true,
              Except.ok.injEq, Prod.mk.injEq] at hsave
            obtain ⟨h1, -⟩ := hsave
            subst h1
            rw [getRelationship_updateRow db r { r with required := true } rfl rfl a b,
                List.length_map]
            exact hinv a b
          · have hq : getRelationship db dt mt = [] := by
              simpa [qsExists, List.isEmpty_iff] using hex
            rw [if_neg hex] at hsave
            simp only [Except.ok.injEq, Prod.mk.injEq] at hsave
            obtain ⟨h1, -⟩ := hsave
            subst h1
            exact pair_length_append_new db dt mt a b ⟨dt, mt, true⟩ rfl rfl hq (hinv a b)
        · rw [if_neg hc3] at hsave
          simp at hsave

/-- Witness for C6: creating an optional row on the empty store keeps every
pair queryset at length at most one. -/
theorem C6_at_most_one_preserved_witness :
    (getRelationship [(⟨1, 2, false⟩ : Relationship)] 5 6).length ≤ 1 :=
  C6_at_most_one_preserved [] [⟨1, 2, false⟩] 1 2 7 "none" "optional"
    [.save ⟨1, 2, false⟩ 7] (fun _ _ => Nat.zero_le 1) rfl 5 6

end Metadata
